import Mathlib

/-! UxPlay GStreamer video renderer: a shallow embedding.

Source: `src/renderers/video_renderer_gstreamer.c`.

The module keeps its state in file-level statics; here they are the fields of
`State`, and every C function becomes a function on `State`.  The results of
calls into GStreamer and FFmpeg made by one `video_renderer_render_buffer` call
are inputs of that call (`Env`).  Every `logger_log` and every library call is
recorded, in program order, in the `trace` of the call; the `return` statement
taken is recorded in `exit`.  Dereferencing the NULL `renderer` and reading
`data` past its declared length are faults.
-/

namespace UxPlay

/-! ## Constants -/

/-- Line 30: `#define SECOND_IN_NSECS 1000000000UL`. -/
def SECOND_IN_NSECS : Nat := 1000000000

/-- GStreamer's `GST_SECOND` (gstclock.h, not part of this repository): one
second in nanoseconds, the unit of `GstClockTime`. -/
def GST_SECOND : Nat := 1000000000

/-- GStreamer's `GST_CLOCK_TIME_NONE`, the all-ones 64-bit value. -/
def GST_CLOCK_TIME_NONE : Nat := 2 ^ 64 - 1

/-- Unsigned 64-bit subtraction, as C computes `a - b` on `GstClockTime`. -/
def sub64 (a b : Nat) : Nat := (a + 2 ^ 64 - b) % 2 ^ 64

/-! ## Data model -/

/-- One octet of an access unit (`unsigned char`). -/
abbrev Byte := Fin 256

/-- States of a GStreamer element (`GstState`). -/
inductive GstState where
  | VOID_PENDING
  | NULL
  | READY
  | PAUSED
  | PLAYING
  deriving DecidableEq, Repr

/-- The heap object behind `renderer` (`struct video_renderer_s`, lines 45-48).
The element handles are not inspected by the module; what the module reads back
from them is the pipeline's state. -/
structure Renderer where
  pipeline : GstState
  deriving DecidableEq, Repr

/-- What the static `codecContext` (line 41) points to. -/
inductive CodecCtx where
  | null
  | allocated
  | opened
  deriving DecidableEq, Repr

/-- The locals of `video_renderer_render_buffer` that own a heap object. -/
inductive Var where
  | pkt
  | frame
  | jpegContext
  | jpegPkt
  deriving DecidableEq, Repr

/-- Number of live (allocated and not yet freed) objects obtained through each
owning local of `video_renderer_render_buffer`. -/
structure Heap where
  pkt : Nat
  frame : Nat
  jpegContext : Nat
  jpegPkt : Nat
  deriving DecidableEq, Repr

/-- An object is obtained through local `v`. -/
def Heap.alloc (h : Heap) : Var → Heap
  | .pkt => { h with pkt := h.pkt + 1 }
  | .frame => { h with frame := h.frame + 1 }
  | .jpegContext => { h with jpegContext := h.jpegContext + 1 }
  | .jpegPkt => { h with jpegPkt := h.jpegPkt + 1 }

/-- The object held by local `v` is freed. -/
def Heap.release (h : Heap) : Var → Heap
  | .pkt => { h with pkt := h.pkt - 1 }
  | .frame => { h with frame := h.frame - 1 }
  | .jpegContext => { h with jpegContext := h.jpegContext - 1 }
  | .jpegPkt => { h with jpegPkt := h.jpegPkt - 1 }

/-- The per-frame scratch objects (input packet and decoded-picture buffer)
that are live. -/
def Heap.scratch (h : Heap) : Nat := h.pkt + h.frame

/-- The module's static variables (lines 32-43) together with the heap objects
the render function owns. -/
structure State where
  /-- Line 32: `renderer`, `none` for NULL. -/
  renderer : Option Renderer
  /-- Line 33: `gst_video_pipeline_base_time`. -/
  base_time : Nat
  /-- Line 36: `first_packet`. -/
  first_packet : Bool
  /-- Line 37: `sync`. -/
  sync : Bool
  /-- Line 39: `last_saved_time`. -/
  last_saved_time : Nat
  /-- Line 41: `codecContext`. -/
  codecContext : CodecCtx
  /-- Line 42: `codec`, `true` for a non-NULL pointer. -/
  codec : Bool
  /-- Line 43: `codec_initialized`. -/
  codec_initialized : Bool
  /-- Live objects allocated by the render function. -/
  heap : Heap
  deriving DecidableEq, Repr

/-- The values of the statics at program start (lines 32-43). -/
def State.startup : State :=
  { renderer := none
    base_time := GST_CLOCK_TIME_NONE
    first_packet := false
    sync := false
    last_saved_time := 0
    codecContext := .null
    codec := false
    codec_initialized := false
    heap := ⟨0, 0, 0, 0⟩ }

/-- Logger levels used by the module. -/
inductive Level where
  | ERR
  | INFO
  | DEBUG
  deriving DecidableEq, Repr

/-- The messages `video_renderer_render_buffer` passes to `logger_log`, one
constructor per format string. -/
inductive Msg where
  /-- Lines 233 and 253: "*** invalid ntp_time < gst_video_pipeline_base_time". -/
  | invalid_ntp_time
  /-- Line 244: "*** ERROR decryption of video packet failed ". -/
  | decryption_failed
  /-- Line 247: "Begin streaming to GStreamer video pipeline". -/
  | begin_streaming
  /-- Line 260: "*** ERROR: Invalid NAL start code". -/
  | invalid_start_code
  /-- Line 281: "*** ERROR: Failed to find H264 codec". -/
  | find_h264_failed
  /-- Line 287: "*** ERROR: Failed to allocate codec context". -/
  | alloc_context_failed
  /-- Line 292: "*** ERROR: Failed to open codec". -/
  | open_codec_failed
  /-- Line 303: "*** ERROR: Failed to allocate packet". -/
  | alloc_packet_failed
  /-- Line 314: "*** ERROR: Failed to allocate frame". -/
  | alloc_frame_failed
  /-- Line 323: "*** ERROR: avcodec_send_packet failed, code %d". -/
  | send_packet_failed (ret : Int)
  /-- Line 339: "*** ERROR: Failed to find JPEG codec". -/
  | find_jpeg_failed
  /-- Line 347: "*** ERROR: Failed to allocate JPEG codec context". -/
  | alloc_jpeg_context_failed
  /-- Line 362: "*** ERROR: Failed to open JPEG codec". -/
  | open_jpeg_failed
  /-- Line 377: "*** ERROR: Failed to send frame to JPEG codec". -/
  | send_frame_failed
  /-- Line 387: "*** ERROR: Failed to receive packet from JPEG codec". -/
  | receive_packet_failed
  /-- Line 398: "*** ERROR: Failed to open file for JPEG output". -/
  | open_file_failed
  deriving DecidableEq, Repr

/-- The library calls `video_renderer_render_buffer` makes after validation. -/
inductive Api where
  /-- Line 279. -/
  | avcodec_find_decoder
  /-- Line 285. -/
  | avcodec_alloc_context3_h264
  /-- Line 291. -/
  | avcodec_open2_h264
  /-- Lines 301 and 369. -/
  | av_packet_alloc (dst : Var)
  /-- Line 308. -/
  | av_new_packet
  /-- Line 309. -/
  | memcpy
  /-- Line 312. -/
  | av_frame_alloc
  /-- Line 321, with what `codecContext` points to at the call. -/
  | avcodec_send_packet (ctx : CodecCtx)
  /-- Line 331, with what `codecContext` points to at the call. -/
  | avcodec_receive_frame (ctx : CodecCtx)
  /-- Line 336. -/
  | avcodec_find_encoder
  /-- Line 345. -/
  | avcodec_alloc_context3_mjpeg
  /-- Line 361. -/
  | avcodec_open2_mjpeg
  /-- Line 376. -/
  | avcodec_send_frame
  /-- Line 386. -/
  | avcodec_receive_packet
  /-- Line 396. -/
  | fopen
  /-- Line 400. -/
  | fwrite
  /-- Line 401. -/
  | fclose
  /-- Lines 315, 324, 405, 412. -/
  | av_packet_free (v : Var)
  /-- Lines 378, 388. -/
  | av_packet_unref (v : Var)
  /-- Lines 325, 413. -/
  | av_frame_free
  /-- Line 326. -/
  | avcodec_close_codecContext
  /-- Lines 293, 304, 316, 327. -/
  | avcodec_free_context_codecContext
  /-- Lines 379, 389, 406. -/
  | avcodec_close_jpegContext
  /-- Lines 363, 380, 390, 407. -/
  | avcodec_free_context_jpegContext
  deriving DecidableEq, Repr

/-- One observable action of a render call. -/
inductive Event where
  | log (lvl : Level) (m : Msg)
  | call (f : Api)
  deriving DecidableEq, Repr

/-- The place where `video_renderer_render_buffer` leaves, by source line. -/
inductive Exit where
  /-- Line 235: `return` in the `sync` branch. -/
  | clock_ordering_sync
  /-- Line 244, then the end of the function: the `if (data[0])` branch. -/
  | decryption_failed
  /-- Line 255. -/
  | clock_ordering
  /-- Line 261. -/
  | malformed_framing
  /-- Line 282. -/
  | codec_not_found
  /-- Line 288. -/
  | context_alloc_failed
  /-- Line 294. -/
  | open_failed
  /-- Line 305. -/
  | packet_alloc_failed
  /-- Line 317. -/
  | frame_alloc_failed
  /-- Line 328. -/
  | send_failed
  /-- Line 341. -/
  | jpeg_codec_not_found
  /-- Line 349. -/
  | jpeg_context_alloc_failed
  /-- Line 365. -/
  | jpeg_open_failed
  /-- Line 372. -/
  | jpeg_packet_alloc_failed
  /-- Line 382. -/
  | jpeg_send_failed
  /-- Line 392. -/
  | jpeg_receive_failed
  /-- Line 415, reached through lines 412-413. -/
  | done
  deriving DecidableEq, Repr

/-- The call left at or after line 277: validation passed and the decoder step
was entered. -/
def Exit.accepted : Exit → Bool
  | .clock_ordering_sync => false
  | .decryption_failed => false
  | .clock_ordering => false
  | .malformed_framing => false
  | _ => true

/-- What the library calls of one render call return. -/
structure Env where
  /-- Line 228: `gst_clock_get_time(gst_element_get_clock(renderer->pipeline))`. -/
  current_time : Nat
  /-- Line 279: `avcodec_find_decoder` returned non-NULL. -/
  find_decoder : Bool
  /-- Line 285: `avcodec_alloc_context3` returned non-NULL. -/
  alloc_context : Bool
  /-- Line 291: return value of `avcodec_open2`. -/
  open2 : Int
  /-- Line 301: `av_packet_alloc` returned non-NULL. -/
  packet_alloc : Bool
  /-- Line 312: `av_frame_alloc` returned non-NULL. -/
  frame_alloc : Bool
  /-- Line 321: return value of `avcodec_send_packet`. -/
  send_packet : Int
  /-- Line 331: return value of `avcodec_receive_frame`. -/
  receive_frame : Int
  /-- Line 336: `avcodec_find_encoder` returned non-NULL. -/
  find_encoder : Bool
  /-- Line 345: `avcodec_alloc_context3` returned non-NULL. -/
  jpeg_alloc_context : Bool
  /-- Line 361: return value of `avcodec_open2`. -/
  jpeg_open2 : Int
  /-- Line 369: `av_packet_alloc` returned non-NULL. -/
  jpeg_packet_alloc : Bool
  /-- Line 376: return value of `avcodec_send_frame`. -/
  send_frame : Int
  /-- Line 386: return value of `avcodec_receive_packet`. -/
  receive_packet : Int
  /-- Line 396: `fopen` returned non-NULL. -/
  fopen : Bool
  deriving DecidableEq, Repr

/-- The arguments of one `video_renderer_render_buffer` call: `data` with its
declared length `*data_len = data.length`, `*nal_count`, `*ntp_time`, and the
library results of the call. -/
structure Call where
  data : List Byte
  nal_count : Int
  ntp_time : Nat
  env : Env
  deriving DecidableEq, Repr

/-- Ways a call does not return. -/
inductive Fault where
  /-- `renderer->...` with `renderer == NULL`. -/
  | null_renderer
  /-- `data[i]` with `i` not below the declared length. -/
  | out_of_bounds (i : Nat)
  deriving DecidableEq, Repr

/-- What a render call that returns leaves behind. -/
structure Result where
  state : State
  trace : List Event
  exit : Exit
  deriving DecidableEq, Repr

/-- The events `evs` happened before those of `r`. -/
def Result.after (evs : List Event) (r : Result) : Result :=
  { r with trace := evs ++ r.trace }

/-! ## Lifecycle (lines 127-222, 417-446) -/

/-- Lines 127-196, `video_renderer_init`: allocates the renderer, records
`*video_sync` in `sync` and asks the pipeline for READY.  A pipeline that
cannot be built aborts the process and is not a state of the module. -/
def video_renderer_init (video_sync : Bool) (s : State) : State :=
  { s with renderer := some { pipeline := .READY }, sync := video_sync }

/-- Lines 211-215, `video_renderer_is_paused`. -/
def video_renderer_is_paused (s : State) : Except Fault Bool :=
  match s.renderer with
  | none => .error .null_renderer
  | some r => .ok (decide (r.pipeline = .PAUSED))

/-- Lines 198-201, `video_renderer_pause`. -/
def video_renderer_pause (s : State) : Except Fault State :=
  match s.renderer with
  | none => .error .null_renderer
  | some _ => .ok { s with renderer := some { pipeline := .PAUSED } }

/-- Lines 203-209, `video_renderer_resume`; `sampled` is what
`gst_element_get_base_time(renderer->appsrc)` returns at line 207. -/
def video_renderer_resume (sampled : Nat) (s : State) : Except Fault State :=
  match video_renderer_is_paused s with
  | .error f => .error f
  | .ok true =>
    .ok { s with renderer := some { pipeline := .PLAYING }, base_time := sampled }
  | .ok false => .ok s

/-- Lines 217-222, `video_renderer_start`; `sampled` is what
`gst_element_get_base_time(renderer->appsrc)` returns at line 219. -/
def video_renderer_start (sampled : Nat) (s : State) : Except Fault State :=
  match s.renderer with
  | none => .error .null_renderer
  | some _ =>
    .ok { s with renderer := some { pipeline := .PLAYING }, base_time := sampled,
                 first_packet := true }

/-- Lines 417-418, `video_renderer_flush`. -/
def video_renderer_flush (s : State) : State := s

/-- Lines 420-425, `video_renderer_stop`. -/
def video_renderer_stop (s : State) : State :=
  match s.renderer with
  | none => s
  | some _ => { s with renderer := some { pipeline := .NULL } }

/-- Lines 427-446, `video_renderer_destroy`. -/
def video_renderer_destroy (s : State) : State :=
  match s.renderer with
  | none => s
  | some _ => { s with renderer := none, codec_initialized := false, codecContext := .null }

/-! ## `video_renderer_render_buffer` (lines 224-415) -/

/-- Checked read of `data[i]`. -/
def readByte (data : List Byte) (i : Nat) : Except Fault Byte :=
  match data[i]? with
  | some b => .ok b
  | none => .error (.out_of_bounds i)

/-- Line 259: `data[0] == 0x00 && data[1] == 0x00 && data[2] == 0x00 &&
data[3] == 0x01`, evaluated left to right with short circuit. -/
def start_code_ok (data : List Byte) : Except Fault Bool :=
  match readByte data 0 with
  | .error f => .error f
  | .ok b0 =>
    if b0 = 0x00 then
      match readByte data 1 with
      | .error f => .error f
      | .ok b1 =>
        if b1 = 0x00 then
          match readByte data 2 with
          | .error f => .error f
          | .ok b2 =>
            if b2 = 0x00 then
              match readByte data 3 with
              | .error f => .error f
              | .ok b3 => .ok (decide (b3 = 0x01))
            else .ok false
        else .ok false
    else .ok false

/-- Lines 226-237: the local `pts` after the `sync` block, `none` when the
block returns at line 235. -/
def sync_pts (s : State) (ntp_time : Nat) : Option Nat :=
  if s.sync = true then
    if ntp_time ≥ s.base_time then some (ntp_time - s.base_time) else none
  else some ntp_time

/-- Lines 412-413: `av_packet_free(&pkt); av_frame_free(&frame);`. -/
def scratch_cleanup (s : State) : Result :=
  { state := { s with heap := (s.heap.release .pkt).release .frame }
    trace := [.call (.av_packet_free .pkt), .call .av_frame_free]
    exit := .done }

/-- Lines 336-413: the still-image sequence entered once the throttle gate has
opened and `last_saved_time` has been set (line 334), up to the end of the
function. -/
def snapshot_stage (e : Env) (s : State) : Result :=
  let t0 : List Event := [.call .avcodec_find_encoder]
  if e.find_encoder = false then
    { state := s, trace := t0 ++ [.log .ERR .find_jpeg_failed], exit := .jpeg_codec_not_found }
  else
  let t1 := t0 ++ [.call .avcodec_alloc_context3_mjpeg]
  if e.jpeg_alloc_context = false then
    { state := s, trace := t1 ++ [.log .ERR .alloc_jpeg_context_failed],
      exit := .jpeg_context_alloc_failed }
  else
  let s1 := { s with heap := s.heap.alloc .jpegContext }
  let t2 := t1 ++ [.call .avcodec_open2_mjpeg]
  if e.jpeg_open2 < 0 then
    { state := { s1 with heap := s1.heap.release .jpegContext }
      trace := t2 ++ [.log .ERR .open_jpeg_failed, .call .avcodec_free_context_jpegContext]
      exit := .jpeg_open_failed }
  else
  let t3 := t2 ++ [.call (.av_packet_alloc .jpegPkt)]
  if e.jpeg_packet_alloc = false then
    { state := s1, trace := t3, exit := .jpeg_packet_alloc_failed }
  else
  let s2 := { s1 with heap := s1.heap.alloc .jpegPkt }
  let t4 := t3 ++ [.call .avcodec_send_frame]
  if e.send_frame < 0 then
    { state := { s2 with heap := s2.heap.release .jpegContext }
      trace := t4 ++ [.log .ERR .send_frame_failed, .call (.av_packet_unref .jpegPkt),
                      .call .avcodec_close_jpegContext, .call .avcodec_free_context_jpegContext]
      exit := .jpeg_send_failed }
  else
  let t5 := t4 ++ [.call .avcodec_receive_packet]
  if e.receive_packet < 0 then
    { state := { s2 with heap := s2.heap.release .jpegContext }
      trace := t5 ++ [.log .ERR .receive_packet_failed, .call (.av_packet_unref .jpegPkt),
                      .call .avcodec_close_jpegContext, .call .avcodec_free_context_jpegContext]
      exit := .jpeg_receive_failed }
  else
  let t6 := t5 ++ [.call .fopen] ++
    (if e.fopen = false then [Event.log .ERR .open_file_failed]
     else [.call .fwrite, .call .fclose])
  let s3 := { s2 with heap := (s2.heap.release .jpegPkt).release .jpegContext }
  (scratch_cleanup s3).after
    (t6 ++ [.call (.av_packet_free .jpegPkt), .call .avcodec_close_jpegContext,
            .call .avcodec_free_context_jpegContext])

/-- Lines 300-413: per-frame packet and frame allocation, decode, throttle gate
and snapshot, up to the end of the function. -/
def frame_stage (e : Env) (s : State) : Result :=
  let t0 : List Event := [.call (.av_packet_alloc .pkt)]
  if e.packet_alloc = false then
    { state := { s with codecContext := .null }
      trace := t0 ++ [.log .ERR .alloc_packet_failed, .call .avcodec_free_context_codecContext]
      exit := .packet_alloc_failed }
  else
  let s1 := { s with heap := s.heap.alloc .pkt }
  let t1 := t0 ++ [.call .av_new_packet, .call .memcpy, .call .av_frame_alloc]
  if e.frame_alloc = false then
    { state := { s1 with heap := s1.heap.release .pkt, codecContext := .null }
      trace := t1 ++ [.log .ERR .alloc_frame_failed, .call (.av_packet_free .pkt),
                      .call .avcodec_free_context_codecContext]
      exit := .frame_alloc_failed }
  else
  let s2 := { s1 with heap := s1.heap.alloc .frame }
  let t2 := t1 ++ [.call (.avcodec_send_packet s2.codecContext)]
  if e.send_packet < 0 then
    { state := { s2 with heap := (s2.heap.release .pkt).release .frame, codecContext := .null }
      trace := t2 ++ [.log .ERR (.send_packet_failed e.send_packet),
                      .call (.av_packet_free .pkt), .call .av_frame_free,
                      .call .avcodec_close_codecContext, .call .avcodec_free_context_codecContext]
      exit := .send_failed }
  else
  let t3 := t2 ++ [.call (.avcodec_receive_frame s2.codecContext)]
  if e.receive_frame = 0 then
    if sub64 e.current_time s2.last_saved_time > 2 * GST_SECOND then
      (snapshot_stage e { s2 with last_saved_time := e.current_time }).after t3
    else (scratch_cleanup s2).after t3
  else (scratch_cleanup s2).after t3

/-- Lines 277-413: lazy decoder initialisation, then the per-frame work. -/
def decoder_stage (e : Env) (s : State) : Result :=
  if s.codec_initialized = false then
    let t0 : List Event := [.call .avcodec_find_decoder]
    let s1 := { s with codec := e.find_decoder }
    if e.find_decoder = false then
      { state := s1, trace := t0 ++ [.log .ERR .find_h264_failed], exit := .codec_not_found }
    else
    let t1 := t0 ++ [.call .avcodec_alloc_context3_h264]
    if e.alloc_context = false then
      { state := { s1 with codecContext := .null }
        trace := t1 ++ [.log .ERR .alloc_context_failed], exit := .context_alloc_failed }
    else
    let s2 := { s1 with codecContext := .allocated }
    let t2 := t1 ++ [.call .avcodec_open2_h264]
    if e.open2 < 0 then
      { state := { s2 with codecContext := .null }
        trace := t2 ++ [.log .ERR .open_codec_failed, .call .avcodec_free_context_codecContext]
        exit := .open_failed }
    else
    (frame_stage e { s2 with codecContext := .opened, codec_initialized := true }).after t2
  else frame_stage e s

/-- Lines 246-249, the static: `first_packet` is cleared once it was set. -/
def clearFirstPacket (s : State) : State :=
  if s.first_packet = true then { s with first_packet := false } else s

/-- Lines 246-249, the log: the one-time "Begin streaming" message. -/
def firstPacketLog (s : State) : List Event :=
  if s.first_packet = true then [.log .INFO .begin_streaming] else []

/-- Lines 238-413: framing validation, then the decoder.  The `g_assert` of
line 238 compares the pointer `data_len`, not the length, with 0 and never
fires for a valid pointer. -/
def ingress_stage (s : State) (c : Call) : Except Fault Result :=
  match readByte c.data 0 with
  | .error f => .error f
  | .ok b0 =>
    if b0 ≠ 0 then
      .ok { state := s, trace := [.log .ERR .decryption_failed], exit := .decryption_failed }
    else
    let t0 := firstPacketLog s
    let s1 := clearFirstPacket s
    if c.ntp_time < s1.base_time then
      .ok { state := s1, trace := t0 ++ [.log .ERR .invalid_ntp_time], exit := .clock_ordering }
    else
    match start_code_ok c.data with
    | .error f => .error f
    | .ok false =>
      .ok { state := s1, trace := t0 ++ [.log .ERR .invalid_start_code],
            exit := .malformed_framing }
    | .ok true => .ok ((decoder_stage c.env s1).after t0)

/-- Lines 224-415, `video_renderer_render_buffer`. -/
def video_renderer_render_buffer (s : State) (c : Call) : Except Fault Result :=
  match s.renderer with
  | none => .error .null_renderer
  | some _ =>
    match sync_pts s c.ntp_time with
    | none =>
      .ok { state := s, trace := [.log .ERR .invalid_ntp_time], exit := .clock_ordering_sync }
    | some _ => ingress_stage s c

/-! ## Observations on a result -/

/-- The three validation errors: the decryption marker (line 244), the
timestamp ordering (lines 233, 253) and the start code (line 260). -/
def Event.isValidationError : Event → Bool
  | .log .ERR .decryption_failed => true
  | .log .ERR .invalid_ntp_time => true
  | .log .ERR .invalid_start_code => true
  | _ => false

/-- No validation error was reported. -/
def noValidationError (tr : List Event) : Bool :=
  tr.all (fun ev => !ev.isValidationError)

/-- The first library call of the decoder step (line 277 onwards): the decoder
lookup when the decoder is not initialised yet, the packet allocation
otherwise. -/
def decoderEntry (s : State) : Event :=
  if s.codec_initialized = false then .call .avcodec_find_decoder
  else .call (.av_packet_alloc .pkt)

/-- The call made a library call, that is, went past validation. -/
def reachedLibrary (tr : List Event) : Bool :=
  tr.any (fun ev => match ev with | .call _ => true | .log _ _ => false)

/-- The call entered the still-image sequence (line 336). -/
def startsCapture (r : Result) : Bool :=
  decide (Event.call .avcodec_find_encoder ∈ r.trace)

/-- The call wrote the still image (line 400). -/
def persistsImage (r : Result) : Bool :=
  decide (Event.call .fwrite ∈ r.trace)

/-- The call attempted decoder initialisation: lookup, allocation or open
(lines 279, 285, 291). -/
def attemptsInit (r : Result) : Bool :=
  decide (Event.call .avcodec_find_decoder ∈ r.trace ∨
    Event.call .avcodec_alloc_context3_h264 ∈ r.trace ∨
    Event.call .avcodec_open2_h264 ∈ r.trace)

/-! ## Sequences of render calls -/

/-- The calls of a sequence that return, each with its result; a fault ends the
run. -/
def renderRun : State → List Call → List (Call × Result)
  | _, [] => []
  | s, c :: cs =>
    match video_renderer_render_buffer s c with
    | .error _ => []
    | .ok r => (c, r) :: renderRun r.state cs

/-- The pipeline-clock readings of the calls of a run that started a capture. -/
def captureTimes (s : State) (cs : List Call) : List Nat :=
  ((renderRun s cs).filter (fun cr => startsCapture cr.2)).map (fun cr => cr.1.env.current_time)

/-! ## Concrete sessions and environments -/

/-- The module after `video_renderer_init` and `video_renderer_start`: the
pipeline is PLAYING and `base_time` holds the sampled base time. -/
def sessionState (video_sync : Bool) (base : Nat) : State :=
  { State.startup with
    renderer := some { pipeline := .PLAYING }
    sync := video_sync
    base_time := base
    first_packet := true }

/-- A session whose decoder was opened by an earlier accepted call. -/
def decodingState (video_sync : Bool) (base : Nat) : State :=
  { sessionState video_sync base with
    first_packet := false
    codecContext := .opened
    codec := true
    codec_initialized := true }

/-- A session paused after it was started. -/
def pausedState (video_sync : Bool) (base : Nat) : State :=
  { sessionState video_sync base with renderer := some { pipeline := .PAUSED } }

/-- Every library call succeeds, a picture is decoded, and the pipeline clock
reads `t`. -/
def okEnv (t : Nat) : Env :=
  { current_time := t
    find_decoder := true
    alloc_context := true
    open2 := 0
    packet_alloc := true
    frame_alloc := true
    send_packet := 0
    receive_frame := 0
    find_encoder := true
    jpeg_alloc_context := true
    jpeg_open2 := 0
    jpeg_packet_alloc := true
    send_frame := 0
    receive_packet := 0
    fopen := true }

/-- The minimal valid access unit of the spec: the start code and one byte. -/
def minimalUnit : List Byte := [0x00, 0x00, 0x00, 0x01, 0x65]

/-! ## Basic facts -/

@[simp] theorem Result.after_state (evs : List Event) (r : Result) :
    (r.after evs).state = r.state := rfl

@[simp] theorem Result.after_exit (evs : List Event) (r : Result) :
    (r.after evs).exit = r.exit := rfl

@[simp] theorem Result.after_trace (evs : List Event) (r : Result) :
    (r.after evs).trace = evs ++ r.trace := rfl

theorem noValidationError_nil : noValidationError [] = true := rfl

theorem noValidationError_cons (ev : Event) (tr : List Event) :
    noValidationError (ev :: tr) = (!ev.isValidationError && noValidationError tr) := rfl

theorem noValidationError_append (a b : List Event) :
    noValidationError (a ++ b) = (noValidationError a && noValidationError b) := by
  simp [noValidationError, List.all_append]

theorem snapshot_stage_noValidationError (e : Env) (s : State) :
    noValidationError (snapshot_stage e s).trace = true := by
  unfold snapshot_stage
  simp only []
  split_ifs <;>
    simp [noValidationError_append, noValidationError_cons, noValidationError_nil,
      scratch_cleanup, Event.isValidationError]

theorem frame_stage_noValidationError (e : Env) (s : State) :
    noValidationError (frame_stage e s).trace = true := by
  unfold frame_stage
  simp only []
  split_ifs <;>
    simp [noValidationError_append, noValidationError_cons, noValidationError_nil,
      scratch_cleanup, Event.isValidationError, snapshot_stage_noValidationError]

theorem decoder_stage_noValidationError (e : Env) (s : State) :
    noValidationError (decoder_stage e s).trace = true := by
  unfold decoder_stage
  simp only []
  split_ifs <;>
    simp [noValidationError_append, noValidationError_cons, noValidationError_nil,
      Event.isValidationError, frame_stage_noValidationError]

theorem snapshot_stage_accepted (e : Env) (s : State) :
    (snapshot_stage e s).exit.accepted = true := by
  unfold snapshot_stage
  simp only []
  split_ifs <;> rfl

theorem frame_stage_accepted (e : Env) (s : State) :
    (frame_stage e s).exit.accepted = true := by
  unfold frame_stage
  simp only []
  split_ifs <;> first | rfl | exact snapshot_stage_accepted _ _

theorem decoder_stage_accepted (e : Env) (s : State) :
    (decoder_stage e s).exit.accepted = true := by
  unfold decoder_stage
  simp only []
  split_ifs <;> first | rfl | exact frame_stage_accepted _ _

theorem frame_stage_entry (e : Env) (s : State) :
    Event.call (.av_packet_alloc .pkt) ∈ (frame_stage e s).trace := by
  unfold frame_stage
  simp only []
  split_ifs <;> simp

theorem decoder_stage_entry (e : Env) (s : State) :
    decoderEntry s ∈ (decoder_stage e s).trace := by
  unfold decoder_stage decoderEntry
  simp only []
  split_ifs <;> simp [frame_stage_entry]

theorem clearFirstPacket_base_time (s : State) :
    (clearFirstPacket s).base_time = s.base_time := by
  unfold clearFirstPacket
  split_ifs <;> rfl

theorem clearFirstPacket_keeps (s : State) :
    (clearFirstPacket s).renderer = s.renderer ∧
    (clearFirstPacket s).last_saved_time = s.last_saved_time ∧
    (clearFirstPacket s).codec_initialized = s.codec_initialized ∧
    (clearFirstPacket s).codecContext = s.codecContext ∧
    (clearFirstPacket s).heap = s.heap ∧
    (clearFirstPacket s).sync = s.sync := by
  unfold clearFirstPacket
  split_ifs <;> exact ⟨rfl, rfl, rfl, rfl, rfl, rfl⟩

theorem decoderEntry_clearFirstPacket (s : State) :
    decoderEntry (clearFirstPacket s) = decoderEntry s := by
  unfold decoderEntry
  rw [(clearFirstPacket_keeps s).2.2.1]

theorem firstPacketLog_noValidationError (s : State) :
    noValidationError (firstPacketLog s) = true := by
  unfold firstPacketLog
  split_ifs <;> rfl

theorem sessionState_eq_start (video_sync : Bool) (base : Nat) :
    video_renderer_start base (video_renderer_init video_sync State.startup) =
      .ok (sessionState video_sync base) := rfl

theorem sync_pts_of_le (s : State) (ntp : Nat) (ht : s.base_time ≤ ntp) :
    ∃ pts, sync_pts s ntp = some pts := by
  unfold sync_pts
  split_ifs <;> simp

/-- The state in which the decoder step is entered: the first-packet flag is
cleared at line 248. -/
theorem render_valid_unit (s : State) (rd : Renderer) (p : List Byte) (n : Int) (ntp : Nat)
    (e : Env) (hr : s.renderer = some rd) (ht : s.base_time ≤ ntp) :
    video_renderer_render_buffer s ⟨0 :: 0 :: 0 :: 1 :: p, n, ntp, e⟩ =
      .ok ((decoder_stage e (clearFirstPacket s)).after (firstPacketLog s)) := by
  obtain ⟨pts, hp⟩ := sync_pts_of_le s ntp ht
  have hlt : ¬ ntp < s.base_time := Nat.not_lt.mpr ht
  unfold video_renderer_render_buffer
  simp only [hr, hp]
  unfold ingress_stage
  simp [readByte, start_code_ok, clearFirstPacket_base_time, hlt]

theorem render_nonzero_first (s : State) (rd : Renderer) (b : Byte) (p : List Byte) (n : Int)
    (ntp : Nat) (e : Env) (hr : s.renderer = some rd) (ht : s.base_time ≤ ntp) (hb : b ≠ 0) :
    video_renderer_render_buffer s ⟨b :: p, n, ntp, e⟩ =
      .ok ⟨s, [.log .ERR .decryption_failed], .decryption_failed⟩ := by
  obtain ⟨pts, hp⟩ := sync_pts_of_le s ntp ht
  unfold video_renderer_render_buffer
  simp only [hr, hp]
  unfold ingress_stage
  simp [readByte, hb]

theorem valid_unit_accepted (s : State) (rd : Renderer) (p : List Byte) (n : Int) (ntp : Nat)
    (e : Env) (hr : s.renderer = some rd) (ht : s.base_time ≤ ntp) :
    ∃ r, video_renderer_render_buffer s ⟨0 :: 0 :: 0 :: 1 :: p, n, ntp, e⟩ = .ok r ∧
      r.exit.accepted = true ∧ noValidationError r.trace = true ∧ decoderEntry s ∈ r.trace := by
  refine ⟨_, render_valid_unit s rd p n ntp e hr ht, ?_, ?_, ?_⟩
  · exact decoder_stage_accepted _ _
  · rw [Result.after_trace, noValidationError_append, decoder_stage_noValidationError,
      firstPacketLog_noValidationError]
    rfl
  · rw [Result.after_trace]
    apply List.mem_append_right
    have h := decoder_stage_entry e (clearFirstPacket s)
    rw [decoderEntry_clearFirstPacket] at h
    exact h

/-- C1: for every payload `p` and every call that passes the timestamp check
(`base_time ≤ ntp_time`) on an initialised renderer, the access unit
`00 00 00 01 ++ p` is accepted: the call returns, no validation error (decryption,
timestamp, start code) is reported, and the decoder step is entered; the same
bytes with the leading byte replaced by `0x01` report exactly the decryption
error, not the start-code error, and leave the state untouched without any
library call. -/
theorem C1_valid_unit_accepted_marker_decryption_failed (s : State) (rd : Renderer)
    (p : List Byte) (n : Int) (ntp : Nat) (e : Env)
    (hr : s.renderer = some rd) (ht : s.base_time ≤ ntp) :
    (∃ r, video_renderer_render_buffer s ⟨0x00 :: 0x00 :: 0x00 :: 0x01 :: p, n, ntp, e⟩ = .ok r ∧
        r.exit.accepted = true ∧ noValidationError r.trace = true ∧
        decoderEntry s ∈ r.trace) ∧
    (∃ r, video_renderer_render_buffer s ⟨0x01 :: 0x00 :: 0x00 :: 0x01 :: p, n, ntp, e⟩ = .ok r ∧
        r.exit = .decryption_failed ∧ r.trace = [.log .ERR .decryption_failed] ∧
        Event.log .ERR .invalid_start_code ∉ r.trace ∧ reachedLibrary r.trace = false ∧
        r.state = s) := by
  exact ⟨valid_unit_accepted s rd p n ntp e hr ht,
    ⟨_, render_nonzero_first s rd 1 (0 :: 0 :: 1 :: p) n ntp e hr ht (by decide), rfl, rfl,
      by simp, rfl, rfl⟩⟩

/-- C1 at the spec's minimal unit, in a synchronised session just started. -/
theorem C1_valid_unit_accepted_marker_decryption_failed_witness :
    (sessionState true 1000).renderer = some { pipeline := .PLAYING } ∧
    (sessionState true 1000).base_time ≤ 2000 ∧
    ((∃ r, video_renderer_render_buffer (sessionState true 1000)
          ⟨0x00 :: 0x00 :: 0x00 :: 0x01 :: [0x65], 1, 2000, okEnv 0⟩ = .ok r ∧
        r.exit.accepted = true ∧ noValidationError r.trace = true ∧
        decoderEntry (sessionState true 1000) ∈ r.trace) ∧
    (∃ r, video_renderer_render_buffer (sessionState true 1000)
          ⟨0x01 :: 0x00 :: 0x00 :: 0x01 :: [0x65], 1, 2000, okEnv 0⟩ = .ok r ∧
        r.exit = .decryption_failed ∧ r.trace = [.log .ERR .decryption_failed] ∧
        Event.log .ERR .invalid_start_code ∉ r.trace ∧ reachedLibrary r.trace = false ∧
        r.state = sessionState true 1000)) :=
  ⟨rfl, by decide,
    C1_valid_unit_accepted_marker_decryption_failed (sessionState true 1000)
      { pipeline := .PLAYING } [0x65] 1 2000 (okEnv 0) rfl (by decide)⟩

theorem render_bad_start_code (s : State) (rd : Renderer) (b1 b2 b3 : Byte) (p : List Byte)
    (n : Int) (ntp : Nat) (e : Env) (hr : s.renderer = some rd) (ht : s.base_time ≤ ntp)
    (hne : ¬ (b1 = 0 ∧ b2 = 0 ∧ b3 = 1)) :
    video_renderer_render_buffer s ⟨0 :: b1 :: b2 :: b3 :: p, n, ntp, e⟩ =
      .ok ⟨clearFirstPacket s, firstPacketLog s ++ [.log .ERR .invalid_start_code],
        .malformed_framing⟩ := by
  obtain ⟨pts, hp⟩ := sync_pts_of_le s ntp ht
  have hlt : ¬ ntp < s.base_time := Nat.not_lt.mpr ht
  unfold video_renderer_render_buffer
  simp only [hr, hp]
  unfold ingress_stage
  have hsc : start_code_ok (0 :: b1 :: b2 :: b3 :: p) = .ok false := by
    unfold start_code_ok
    simp only [readByte, List.getElem?_cons_zero, List.getElem?_cons_succ]
    by_cases h1 : b1 = 0
    · by_cases h2 : b2 = 0
      · have h3 : b3 ≠ 1 := fun h3 => hne ⟨h1, h2, h3⟩
        simp [h1, h2, h3]
      · simp [h1, h2]
    · simp [h1]
  simp [readByte, hsc, clearFirstPacket_base_time, hlt]

/-- C2, refuted as stated: a four-byte unit with first byte `0x02` (neither
`0x00` nor `0x01`, first four bytes not `00 00 00 01`) that passes the timestamp
check reports the decryption error of line 244, not the start-code error. -/
theorem C2_first_byte_two_is_decryption_failed :
    ∃ r, video_renderer_render_buffer (sessionState true 1000)
        ⟨[0x02, 0x00, 0x00, 0x01], 1, 2000, okEnv 0⟩ = .ok r ∧
      r.exit = .decryption_failed ∧
      Event.log .ERR .decryption_failed ∈ r.trace ∧
      Event.log .ERR .invalid_start_code ∉ r.trace :=
  ⟨⟨sessionState true 1000, [.log .ERR .decryption_failed], .decryption_failed⟩,
    rfl, rfl, by decide, by decide⟩

/-- C2, amended: for every access unit of at least four bytes that passes the
timestamp check on an initialised renderer and whose first four bytes are not
`00 00 00 01`, the call returns without entering the decoder step; when the
first byte is `0x00` it reports the invalid-start-code error and not the
decryption error, and when the first byte is anything other than `0x00` (not
only `0x01`) it reports the decryption error and not the start-code error. -/
theorem C2_malformed_framing_only_after_zero_first_byte (s : State) (rd : Renderer)
    (b0 b1 b2 b3 : Byte) (p : List Byte) (n : Int) (ntp : Nat) (e : Env)
    (hr : s.renderer = some rd) (ht : s.base_time ≤ ntp)
    (hne : [b0, b1, b2, b3] ≠ [0x00, 0x00, 0x00, 0x01]) :
    ∃ r, video_renderer_render_buffer s ⟨b0 :: b1 :: b2 :: b3 :: p, n, ntp, e⟩ = .ok r ∧
      reachedLibrary r.trace = false ∧
      (b0 = 0x00 → r.exit = .malformed_framing ∧
        Event.log .ERR .invalid_start_code ∈ r.trace ∧
        Event.log .ERR .decryption_failed ∉ r.trace) ∧
      (b0 ≠ 0x00 → r.exit = .decryption_failed ∧
        Event.log .ERR .decryption_failed ∈ r.trace ∧
        Event.log .ERR .invalid_start_code ∉ r.trace) := by
  by_cases h0 : b0 = 0
  · subst h0
    have hne3 : ¬ (b1 = 0 ∧ b2 = 0 ∧ b3 = 1) := by
      rintro ⟨h1, h2, h3⟩
      exact hne (by rw [h1, h2, h3])
    refine ⟨_, render_bad_start_code s rd b1 b2 b3 p n ntp e hr ht hne3, ?_, ?_, ?_⟩
    · by_cases hf : s.first_packet = true <;> simp [firstPacketLog, hf, reachedLibrary]
    · intro _
      refine ⟨rfl, ?_, ?_⟩
      · simp
      · by_cases hf : s.first_packet = true <;> simp [firstPacketLog, hf]
    · intro h
      exact absurd rfl h
  · refine ⟨_, render_nonzero_first s rd b0 _ n ntp e hr ht h0, rfl, ?_, ?_⟩
    · intro h
      exact absurd h h0
    · intro _
      exact ⟨rfl, by simp, by simp⟩

/-- C2 amended, at `00 00 01 ..` (a three-byte start code) in a session just
started. -/
theorem C2_malformed_framing_only_after_zero_first_byte_witness :
    ∃ r, video_renderer_render_buffer (sessionState true 1000)
        ⟨0x00 :: 0x00 :: 0x01 :: 0x65 :: [], 1, 2000, okEnv 0⟩ = .ok r ∧
      reachedLibrary r.trace = false ∧
      ((0x00 : Byte) = 0x00 → r.exit = .malformed_framing ∧
        Event.log .ERR .invalid_start_code ∈ r.trace ∧
        Event.log .ERR .decryption_failed ∉ r.trace) ∧
      ((0x00 : Byte) ≠ 0x00 → r.exit = .decryption_failed ∧
        Event.log .ERR .decryption_failed ∈ r.trace ∧
        Event.log .ERR .invalid_start_code ∉ r.trace) :=
  C2_malformed_framing_only_after_zero_first_byte (sessionState true 1000)
    { pipeline := .PLAYING } 0x00 0x00 0x01 0x65 [] 1 2000 (okEnv 0) rfl (by decide) (by decide)

/-- C3: with synchronisation enabled on an initialised renderer and
`ntp_time < base_time`, the call returns at line 235 with every static (decoder
flag and context, first-packet flag, last snapshot time, base time) and the heap
as before, having logged the timestamp error and made no library call: neither
the decoder nor the snapshot step is reached. -/
theorem C3_sync_rejects_early_timestamp_unchanged (s : State) (rd : Renderer) (c : Call)
    (hr : s.renderer = some rd) (hs : s.sync = true) (ht : c.ntp_time < s.base_time) :
    ∃ r, video_renderer_render_buffer s c = .ok r ∧
      r.exit = .clock_ordering_sync ∧ r.state = s ∧
      r.state.codec_initialized = s.codec_initialized ∧
      r.state.codecContext = s.codecContext ∧
      r.state.first_packet = s.first_packet ∧
      r.state.last_saved_time = s.last_saved_time ∧
      r.state.base_time = s.base_time ∧
      r.trace = [.log .ERR .invalid_ntp_time] ∧
      reachedLibrary r.trace = false ∧ startsCapture r = false := by
  have hp : sync_pts s c.ntp_time = none := by
    unfold sync_pts
    simp [hs, ht]
  refine ⟨⟨s, [.log .ERR .invalid_ntp_time], .clock_ordering_sync⟩, ?_, rfl, rfl, rfl, rfl, rfl,
    rfl, rfl, rfl, rfl, by simp [startsCapture]⟩
  unfold video_renderer_render_buffer
  simp only [hr, hp]

/-- C3 at a valid unit stamped 1000 ns before the base time of a decoding,
synchronised session. -/
theorem C3_sync_rejects_early_timestamp_unchanged_witness :
    ∃ r, video_renderer_render_buffer (decodingState true 5000)
        ⟨minimalUnit, 1, 4000, okEnv 7⟩ = .ok r ∧
      r.exit = .clock_ordering_sync ∧ r.state = decodingState true 5000 ∧
      r.state.codec_initialized = (decodingState true 5000).codec_initialized ∧
      r.state.codecContext = (decodingState true 5000).codecContext ∧
      r.state.first_packet = (decodingState true 5000).first_packet ∧
      r.state.last_saved_time = (decodingState true 5000).last_saved_time ∧
      r.state.base_time = (decodingState true 5000).base_time ∧
      r.trace = [.log .ERR .invalid_ntp_time] ∧
      reachedLibrary r.trace = false ∧ startsCapture r = false :=
  C3_sync_rejects_early_timestamp_unchanged (decodingState true 5000) { pipeline := .PLAYING }
    ⟨minimalUnit, 1, 4000, okEnv 7⟩ rfl rfl (by decide)

theorem render_unsynced_early (s : State) (rd : Renderer) (p : List Byte) (n : Int) (ntp : Nat)
    (e : Env) (hr : s.renderer = some rd) (hs : s.sync = false) (ht : ntp < s.base_time) :
    video_renderer_render_buffer s ⟨0 :: p, n, ntp, e⟩ =
      .ok ⟨clearFirstPacket s, firstPacketLog s ++ [.log .ERR .invalid_ntp_time],
        .clock_ordering⟩ := by
  have hp : sync_pts s ntp = some ntp := by
    unfold sync_pts
    simp [hs]
  unfold video_renderer_render_buffer
  simp only [hr, hp]
  unfold ingress_stage
  simp [readByte, clearFirstPacket_base_time, ht]

/-- C4, refuted as stated: with synchronisation disabled, a unit beginning
`00 00 00 01` whose `ntp_time` (500) is below `base_time` (1000) is rejected at
the unconditional check of line 252 with the timestamp error; the decoder step
is not reached. -/
theorem C4_unsynced_early_timestamp_rejected :
    (sessionState false 1000).sync = false ∧
    ∃ r, video_renderer_render_buffer (sessionState false 1000)
        ⟨minimalUnit, 1, 500, okEnv 0⟩ = .ok r ∧
      r.exit = .clock_ordering ∧ r.exit.accepted = false ∧
      Event.log .ERR .invalid_ntp_time ∈ r.trace ∧
      decoderEntry (sessionState false 1000) ∉ r.trace ∧
      reachedLibrary r.trace = false :=
  ⟨rfl, ⟨{ sessionState false 1000 with first_packet := false },
      [.log .INFO .begin_streaming, .log .ERR .invalid_ntp_time], .clock_ordering⟩,
    rfl, rfl, rfl, by decide, by decide, rfl⟩

/-- C4, amended: with synchronisation disabled on an initialised renderer the
sync block neither transforms the timestamp nor rejects on it (`pts` stays
`ntp_time`), but the check of line 252 still applies: a unit beginning
`00 00 00 01` is accepted and reaches the decoder step when
`ntp_time ≥ base_time`, and is rejected with the timestamp error, without
reaching the decoder step, when `ntp_time < base_time`. -/
theorem C4_unsynced_keeps_timestamp_but_checks_order (s : State) (rd : Renderer)
    (p : List Byte) (n : Int) (ntp : Nat) (e : Env)
    (hr : s.renderer = some rd) (hs : s.sync = false) :
    sync_pts s ntp = some ntp ∧
    ∃ r, video_renderer_render_buffer s ⟨0x00 :: 0x00 :: 0x00 :: 0x01 :: p, n, ntp, e⟩ = .ok r ∧
      r.exit ≠ .clock_ordering_sync ∧
      (s.base_time ≤ ntp → r.exit.accepted = true ∧ noValidationError r.trace = true ∧
        decoderEntry s ∈ r.trace) ∧
      (ntp < s.base_time → r.exit = .clock_ordering ∧
        Event.log .ERR .invalid_ntp_time ∈ r.trace ∧ reachedLibrary r.trace = false) := by
  refine ⟨by unfold sync_pts; simp [hs], ?_⟩
  by_cases ht : s.base_time ≤ ntp
  · obtain ⟨r, hr1, hacc, hnv, hent⟩ := valid_unit_accepted s rd p n ntp e hr ht
    refine ⟨r, hr1, ?_, fun _ => ⟨hacc, hnv, hent⟩, fun h => absurd ht (Nat.not_le.mpr h)⟩
    intro hx
    rw [hx] at hacc
    exact absurd hacc (by decide)
  · have hlt : ntp < s.base_time := Nat.not_le.mp ht
    refine ⟨_, render_unsynced_early s rd _ n ntp e hr hs hlt, by simp, fun h => absurd h ht,
      fun _ => ⟨rfl, by simp, ?_⟩⟩
    by_cases hf : s.first_packet = true <;> simp [firstPacketLog, hf, reachedLibrary]

/-- C4 amended, at the minimal unit stamped below the base time of an
unsynchronised session. -/
theorem C4_unsynced_keeps_timestamp_but_checks_order_witness :
    sync_pts (sessionState false 1000) 500 = some 500 ∧
    ∃ r, video_renderer_render_buffer (sessionState false 1000)
        ⟨0x00 :: 0x00 :: 0x00 :: 0x01 :: [0x65], 1, 500, okEnv 0⟩ = .ok r ∧
      r.exit ≠ .clock_ordering_sync ∧
      ((sessionState false 1000).base_time ≤ 500 → r.exit.accepted = true ∧
        noValidationError r.trace = true ∧ decoderEntry (sessionState false 1000) ∈ r.trace) ∧
      (500 < (sessionState false 1000).base_time → r.exit = .clock_ordering ∧
        Event.log .ERR .invalid_ntp_time ∈ r.trace ∧ reachedLibrary r.trace = false) :=
  C4_unsynced_keeps_timestamp_but_checks_order (sessionState false 1000) { pipeline := .PLAYING }
    [0x65] 1 500 (okEnv 0) rfl rfl

/-! ## The five ways a render call returns -/

theorem ingress_stage_cases (s : State) (c : Call) (r : Result)
    (h : ingress_stage s c = .ok r) :
    r = ⟨s, [.log .ERR .decryption_failed], .decryption_failed⟩ ∨
    r = ⟨clearFirstPacket s, firstPacketLog s ++ [.log .ERR .invalid_ntp_time],
      .clock_ordering⟩ ∨
    r = ⟨clearFirstPacket s, firstPacketLog s ++ [.log .ERR .invalid_start_code],
      .malformed_framing⟩ ∨
    r = (decoder_stage c.env (clearFirstPacket s)).after (firstPacketLog s) := by
  unfold ingress_stage at h
  cases hb : readByte c.data 0 with
  | error f => simp [hb] at h
  | ok b0 =>
    simp only [hb] at h
    by_cases h0 : b0 ≠ 0
    · rw [if_pos h0] at h
      left
      exact (Except.ok.inj h).symm
    · rw [if_neg h0] at h
      by_cases ht : c.ntp_time < (clearFirstPacket s).base_time
      · rw [if_pos ht] at h
        right; left
        exact (Except.ok.inj h).symm
      · rw [if_neg ht] at h
        cases hsc : start_code_ok c.data with
        | error f => simp [hsc] at h
        | ok b =>
          cases b with
          | false =>
            simp only [hsc] at h
            right; right; left
            exact (Except.ok.inj h).symm
          | true =>
            simp only [hsc] at h
            right; right; right
            exact (Except.ok.inj h).symm

theorem render_cases (s : State) (c : Call) (r : Result)
    (h : video_renderer_render_buffer s c = .ok r) :
    r = ⟨s, [.log .ERR .invalid_ntp_time], .clock_ordering_sync⟩ ∨
    r = ⟨s, [.log .ERR .decryption_failed], .decryption_failed⟩ ∨
    r = ⟨clearFirstPacket s, firstPacketLog s ++ [.log .ERR .invalid_ntp_time],
      .clock_ordering⟩ ∨
    r = ⟨clearFirstPacket s, firstPacketLog s ++ [.log .ERR .invalid_start_code],
      .malformed_framing⟩ ∨
    r = (decoder_stage c.env (clearFirstPacket s)).after (firstPacketLog s) := by
  unfold video_renderer_render_buffer at h
  cases hren : s.renderer with
  | none => simp [hren] at h
  | some rd =>
    simp only [hren] at h
    cases hp : sync_pts s c.ntp_time with
    | none =>
      simp only [hp] at h
      left
      exact (Except.ok.inj h).symm
    | some pts =>
      simp only [hp] at h
      right
      exact ingress_stage_cases s c r h

/-! ## What the stages leave alone -/

theorem snapshot_stage_keeps (e : Env) (s : State) :
    (snapshot_stage e s).state.base_time = s.base_time ∧
    (snapshot_stage e s).state.renderer = s.renderer ∧
    (snapshot_stage e s).state.last_saved_time = s.last_saved_time ∧
    (snapshot_stage e s).state.codec_initialized = s.codec_initialized ∧
    (snapshot_stage e s).state.codecContext = s.codecContext := by
  unfold snapshot_stage
  simp only []
  split_ifs <;> exact ⟨rfl, rfl, rfl, rfl, rfl⟩

theorem frame_stage_keeps (e : Env) (s : State) :
    (frame_stage e s).state.base_time = s.base_time ∧
    (frame_stage e s).state.renderer = s.renderer ∧
    (frame_stage e s).state.codec_initialized = s.codec_initialized := by
  unfold frame_stage
  simp only []
  split_ifs
  · exact ⟨rfl, rfl, rfl⟩
  · exact ⟨rfl, rfl, rfl⟩
  · exact ⟨rfl, rfl, rfl⟩
  · obtain ⟨h1, h2, _, h4, _⟩ :=
      snapshot_stage_keeps e { { s with heap := s.heap.alloc .pkt } with
        heap := (s.heap.alloc .pkt).alloc .frame, last_saved_time := e.current_time }
    exact ⟨h1, h2, h4⟩
  · exact ⟨rfl, rfl, rfl⟩
  · exact ⟨rfl, rfl, rfl⟩

theorem decoder_stage_keeps (e : Env) (s : State) :
    (decoder_stage e s).state.base_time = s.base_time ∧
    (decoder_stage e s).state.renderer = s.renderer := by
  unfold decoder_stage
  simp only []
  split_ifs
  · exact ⟨rfl, rfl⟩
  · exact ⟨rfl, rfl⟩
  · exact ⟨rfl, rfl⟩
  · obtain ⟨h1, h2, _⟩ := frame_stage_keeps e
      { s with codec := e.find_decoder, codecContext := .opened, codec_initialized := true }
    exact ⟨h1, h2⟩
  · obtain ⟨h1, h2, _⟩ := frame_stage_keeps e s
    exact ⟨h1, h2⟩

theorem render_keeps (s : State) (c : Call) (r : Result)
    (h : video_renderer_render_buffer s c = .ok r) :
    r.state.base_time = s.base_time ∧ r.state.renderer = s.renderer := by
  have hk := clearFirstPacket_keeps s
  have hb := clearFirstPacket_base_time s
  rcases render_cases s c r h with h | h | h | h | h <;> subst h
  · exact ⟨rfl, rfl⟩
  · exact ⟨rfl, rfl⟩
  · exact ⟨hb, hk.1⟩
  · exact ⟨hb, hk.1⟩
  · obtain ⟨h1, h2⟩ := decoder_stage_keeps c.env (clearFirstPacket s)
    exact ⟨h1.trans hb, h2.trans hk.1⟩

theorem render_returns (s : State) (rd : Renderer) (c : Call)
    (hr : s.renderer = some rd) (hlen : 4 ≤ c.data.length) :
    ∃ r, video_renderer_render_buffer s c = .ok r := by
  obtain ⟨data, n, ntp, e⟩ := c
  match data, hlen with
  | b0 :: b1 :: b2 :: b3 :: p, _ =>
    unfold video_renderer_render_buffer
    simp only [hr]
    cases hp : sync_pts s ntp with
    | none => exact ⟨_, rfl⟩
    | some pts =>
      simp only []
      unfold ingress_stage
      simp only [readByte, List.getElem?_cons_zero]
      by_cases h0 : b0 ≠ 0
      · rw [if_pos h0]
        exact ⟨_, rfl⟩
      · rw [if_neg h0]
        by_cases ht : ntp < (clearFirstPacket s).base_time
        · rw [if_pos ht]
          exact ⟨_, rfl⟩
        · rw [if_neg ht]
          have hsc : ∃ b, start_code_ok (b0 :: b1 :: b2 :: b3 :: p) = .ok b := by
            unfold start_code_ok
            simp only [readByte, List.getElem?_cons_zero, List.getElem?_cons_succ]
            split_ifs <;> exact ⟨_, rfl⟩
          obtain ⟨b, hb⟩ := hsc
          rw [hb]
          cases b <;> exact ⟨_, rfl⟩

theorem pausedState_eq_pause (video_sync : Bool) (base : Nat) :
    video_renderer_pause (sessionState video_sync base) = .ok (pausedState video_sync base) := rfl

/-- C6: on an initialised renderer, `video_renderer_resume` called while the
pipeline is PAUSED sets `base_time` to the base time sampled at that call, and
so does `video_renderer_start`; `video_renderer_resume` in any other pipeline
state, `video_renderer_pause`, and `video_renderer_render_buffer` on any input
(which returns whenever the unit has at least four bytes) leave `base_time` as
it was, as do flush, stop and destroy. -/
theorem C6_base_time_changes_only_on_start_or_resume_from_paused (s : State) (rd : Renderer)
    (sampled : Nat) (c : Call) (hr : s.renderer = some rd) :
    (rd.pipeline = .PAUSED →
      ∃ s', video_renderer_resume sampled s = .ok s' ∧ s'.base_time = sampled) ∧
    (rd.pipeline ≠ .PAUSED →
      ∃ s', video_renderer_resume sampled s = .ok s' ∧ s'.base_time = s.base_time) ∧
    (∃ s', video_renderer_start sampled s = .ok s' ∧ s'.base_time = sampled) ∧
    (∃ s', video_renderer_pause s = .ok s' ∧ s'.base_time = s.base_time) ∧
    (∀ r, video_renderer_render_buffer s c = .ok r → r.state.base_time = s.base_time) ∧
    (4 ≤ c.data.length →
      ∃ r, video_renderer_render_buffer s c = .ok r ∧ r.state.base_time = s.base_time) ∧
    (video_renderer_flush s).base_time = s.base_time ∧
    (video_renderer_stop s).base_time = s.base_time ∧
    (video_renderer_destroy s).base_time = s.base_time := by
  refine ⟨?_, ?_, ?_, ?_, ?_, ?_, rfl, ?_, ?_⟩
  · intro hp
    refine ⟨{ s with renderer := some { pipeline := .PLAYING }, base_time := sampled }, ?_, rfl⟩
    simp [video_renderer_resume, video_renderer_is_paused, hr, hp]
  · intro hp
    refine ⟨s, ?_, rfl⟩
    simp [video_renderer_resume, video_renderer_is_paused, hr, hp]
  · refine ⟨{ s with renderer := some { pipeline := .PLAYING }, base_time := sampled,
                     first_packet := true }, ?_, rfl⟩
    simp [video_renderer_start, hr]
  · refine ⟨{ s with renderer := some { pipeline := .PAUSED } }, ?_, rfl⟩
    simp [video_renderer_pause, hr]
  · intro r h
    exact (render_keeps s c r h).1
  · intro hlen
    obtain ⟨r, h⟩ := render_returns s rd c hr hlen
    exact ⟨r, h, (render_keeps s c r h).1⟩
  · simp [video_renderer_stop, hr]
  · simp [video_renderer_destroy, hr]

/-- C6 at a paused session with base time 1000, resumed with a sampled base
time of 9000. -/
theorem C6_base_time_changes_only_on_start_or_resume_from_paused_witness :
    (∃ s', video_renderer_resume 9000 (pausedState true 1000) = .ok s' ∧ s'.base_time = 9000) ∧
    (∃ s', video_renderer_pause (pausedState true 1000) = .ok s' ∧ s'.base_time = 1000) ∧
    (∃ r, video_renderer_render_buffer (pausedState true 1000)
        ⟨minimalUnit, 1, 2000, okEnv 0⟩ = .ok r ∧ r.state.base_time = 1000) :=
  have h := C6_base_time_changes_only_on_start_or_resume_from_paused (pausedState true 1000)
    { pipeline := .PAUSED } 9000 ⟨minimalUnit, 1, 2000, okEnv 0⟩ rfl
  ⟨h.1 rfl, h.2.2.2.1, h.2.2.2.2.2.1 (by decide)⟩

/-! ## The throttle gate -/

theorem sub64_of_le (a b k : Nat) (hle : b ≤ a) (h : k < sub64 a b) : b + k < a := by
  unfold sub64 at h
  have e1 : a + 2 ^ 64 - b = (a - b) + 2 ^ 64 := by omega
  rw [e1, Nat.add_mod_right] at h
  have := Nat.mod_le (a - b) (2 ^ 64)
  omega

theorem snapshot_stage_capture (e : Env) (s : State) :
    Event.call .avcodec_find_encoder ∈ (snapshot_stage e s).trace := by
  unfold snapshot_stage
  simp only []
  split_ifs <;> simp

theorem firstPacketLog_no_call (s : State) (f : Api) : Event.call f ∉ firstPacketLog s := by
  unfold firstPacketLog
  split_ifs <;> simp

theorem frame_stage_capture (e : Env) (s : State) :
    (Event.call .avcodec_find_encoder ∈ (frame_stage e s).trace →
      2 * GST_SECOND < sub64 e.current_time s.last_saved_time ∧
      (frame_stage e s).state.last_saved_time = e.current_time) ∧
    (Event.call .avcodec_find_encoder ∉ (frame_stage e s).trace →
      (frame_stage e s).state.last_saved_time = s.last_saved_time) := by
  unfold frame_stage
  simp only []
  split_ifs with h1 h2 h3 h4 h5
  · exact ⟨fun h => absurd h (by simp), fun _ => rfl⟩
  · exact ⟨fun h => absurd h (by simp), fun _ => rfl⟩
  · exact ⟨fun h => absurd h (by simp), fun _ => rfl⟩
  · refine ⟨fun _ => ⟨h5, (snapshot_stage_keeps e _).2.2.1⟩, fun h => absurd ?_ h⟩
    rw [Result.after_trace]
    exact List.mem_append_right _ (snapshot_stage_capture e _)
  · exact ⟨fun h => absurd h (by simp [scratch_cleanup]), fun _ => rfl⟩
  · exact ⟨fun h => absurd h (by simp [scratch_cleanup]), fun _ => rfl⟩

theorem decoder_stage_capture (e : Env) (s : State) :
    (Event.call .avcodec_find_encoder ∈ (decoder_stage e s).trace →
      2 * GST_SECOND < sub64 e.current_time s.last_saved_time ∧
      (decoder_stage e s).state.last_saved_time = e.current_time) ∧
    (Event.call .avcodec_find_encoder ∉ (decoder_stage e s).trace →
      (decoder_stage e s).state.last_saved_time = s.last_saved_time) := by
  unfold decoder_stage
  simp only []
  split_ifs with h1 h2 h3 h4
  · exact ⟨fun h => absurd h (by simp), fun _ => rfl⟩
  · exact ⟨fun h => absurd h (by simp), fun _ => rfl⟩
  · exact ⟨fun h => absurd h (by simp), fun _ => rfl⟩
  · have hf := frame_stage_capture e
      { s with codec := e.find_decoder, codecContext := .opened, codec_initialized := true }
    simp only [Result.after_trace, Result.after_state, List.mem_append, List.mem_cons,
      List.mem_singleton, List.not_mem_nil, reduceCtorEq, Event.call.injEq, or_false,
      false_or] at hf ⊢
    exact hf
  · exact frame_stage_capture e s

theorem render_capture (s : State) (c : Call) (r : Result)
    (h : video_renderer_render_buffer s c = .ok r) :
    (startsCapture r = true →
      2 * GST_SECOND < sub64 c.env.current_time s.last_saved_time ∧
      r.state.last_saved_time = c.env.current_time) ∧
    (startsCapture r = false → r.state.last_saved_time = s.last_saved_time) := by
  have hk := (clearFirstPacket_keeps s).2.1
  unfold startsCapture
  simp only [decide_eq_true_eq, decide_eq_false_iff_not]
  rcases render_cases s c r h with h | h | h | h | h <;> subst h
  · exact ⟨fun h => absurd h (by simp), fun _ => rfl⟩
  · exact ⟨fun h => absurd h (by simp), fun _ => rfl⟩
  · exact ⟨fun h => absurd h (by simp [firstPacketLog_no_call]), fun _ => hk⟩
  · exact ⟨fun h => absurd h (by simp [firstPacketLog_no_call]), fun _ => hk⟩
  · have hd := decoder_stage_capture c.env (clearFirstPacket s)
    rw [hk] at hd
    simp only [Result.after_trace, Result.after_state, List.mem_append, firstPacketLog_no_call,
      false_or]
    exact hd

/-! ## Runs -/

theorem captureTimes_cons_error (s : State) (c : Call) (cs : List Call) (f : Fault)
    (h : video_renderer_render_buffer s c = .error f) : captureTimes s (c :: cs) = [] := by
  simp [captureTimes, renderRun, h]

theorem captureTimes_cons_ok (s : State) (c : Call) (cs : List Call) (r : Result)
    (h : video_renderer_render_buffer s c = .ok r) :
    captureTimes s (c :: cs) =
      (if startsCapture r = true then [c.env.current_time] else []) ++
        captureTimes r.state cs := by
  by_cases hc : startsCapture r = true <;>
    simp [captureTimes, renderRun, h, hc, List.filter_cons]

theorem captureTimes_after_last (cs : List Call) :
    ∀ s : State, (∀ c ∈ cs, s.last_saved_time ≤ c.env.current_time) →
      List.Pairwise (· ≤ ·) (cs.map (fun c => c.env.current_time)) →
      ∀ t ∈ captureTimes s cs, s.last_saved_time + 2 * GST_SECOND < t := by
  induction cs with
  | nil =>
    intro s _ _ t ht
    simp [captureTimes, renderRun] at ht
  | cons c cs ih =>
    intro s hlo hsorted t ht
    rw [List.map_cons, List.pairwise_cons] at hsorted
    have hc : s.last_saved_time ≤ c.env.current_time := hlo c (List.mem_cons_self _ _)
    cases hres : video_renderer_render_buffer s c with
    | error f =>
      rw [captureTimes_cons_error s c cs f hres] at ht
      exact absurd ht (List.not_mem_nil _)
    | ok r =>
      rw [captureTimes_cons_ok s c cs r hres] at ht
      obtain ⟨hyes, hno⟩ := render_capture s c r hres
      by_cases hcap : startsCapture r = true
      · obtain ⟨hgate, hlast⟩ := hyes hcap
        have hstep := sub64_of_le _ _ _ hc hgate
        rw [if_pos hcap] at ht
        rcases List.mem_append.mp ht with ht | ht
        · rw [List.mem_singleton] at ht
          omega
        · have hlo2 : ∀ c2 ∈ cs, r.state.last_saved_time ≤ c2.env.current_time := by
            intro c2 hc2
            rw [hlast]
            exact hsorted.1 _ (List.mem_map_of_mem _ hc2)
          have := ih r.state hlo2 hsorted.2 t ht
          omega
      · rw [if_neg hcap, List.nil_append] at ht
        have hlast := hno (by simpa using hcap)
        have hlo2 : ∀ c2 ∈ cs, r.state.last_saved_time ≤ c2.env.current_time := by
          intro c2 hc2
          rw [hlast]
          exact hlo c2 (List.mem_cons_of_mem _ hc2)
        have := ih r.state hlo2 hsorted.2 t ht
        omega

/-- C5: for every sequence of `video_renderer_render_buffer` calls whose
pipeline-clock readings are non-decreasing, started in any module state and
with any library results (so also when every call decodes a picture), the
readings of any two calls that start a snapshot capture are at least
`2 * GST_SECOND` (2 * 10^9 ns) apart. -/
theorem C5_captures_two_seconds_apart (s : State) (cs : List Call)
    (hsorted : List.Pairwise (· ≤ ·) (cs.map (fun c => c.env.current_time))) :
    List.Pairwise (fun t1 t2 => t1 + 2 * GST_SECOND ≤ t2) (captureTimes s cs) := by
  induction cs generalizing s with
  | nil => simp [captureTimes, renderRun]
  | cons c cs ih =>
    rw [List.map_cons, List.pairwise_cons] at hsorted
    cases hres : video_renderer_render_buffer s c with
    | error f =>
      rw [captureTimes_cons_error s c cs f hres]
      exact List.Pairwise.nil
    | ok r =>
      rw [captureTimes_cons_ok s c cs r hres]
      by_cases hcap : startsCapture r = true
      · rw [if_pos hcap, List.singleton_append, List.pairwise_cons]
        refine ⟨?_, ih r.state hsorted.2⟩
        intro t ht
        have hlast := ((render_capture s c r hres).1 hcap).2
        have hlo : ∀ c2 ∈ cs, r.state.last_saved_time ≤ c2.env.current_time := by
          intro c2 hc2
          rw [hlast]
          exact hsorted.1 _ (List.mem_map_of_mem _ hc2)
        have := captureTimes_after_last cs r.state hlo hsorted.2 t ht
        omega
      · rw [if_neg hcap, List.nil_append]
        exact ih r.state hsorted.2

/-- C5 on five calls that all decode a picture, at clock readings 3.0 s, 3.5 s,
5.0 s, 5.5 s and 8.0 s: the captures are those at 3.0 s, 5.5 s and 8.0 s. -/
theorem C5_captures_two_seconds_apart_witness :
    captureTimes (decodingState true 0)
        [⟨minimalUnit, 1, 10, okEnv 3000000000⟩, ⟨minimalUnit, 1, 20, okEnv 3500000000⟩,
         ⟨minimalUnit, 1, 30, okEnv 5000000000⟩, ⟨minimalUnit, 1, 40, okEnv 5500000000⟩,
         ⟨minimalUnit, 1, 50, okEnv 8000000000⟩] = [3000000000, 5500000000, 8000000000] ∧
    List.Pairwise (fun t1 t2 => t1 + 2 * GST_SECOND ≤ t2)
      (captureTimes (decodingState true 0)
        [⟨minimalUnit, 1, 10, okEnv 3000000000⟩, ⟨minimalUnit, 1, 20, okEnv 3500000000⟩,
         ⟨minimalUnit, 1, 30, okEnv 5000000000⟩, ⟨minimalUnit, 1, 40, okEnv 5500000000⟩,
         ⟨minimalUnit, 1, 50, okEnv 8000000000⟩]) :=
  ⟨by decide, C5_captures_two_seconds_apart (decodingState true 0) _ (by decide)⟩

/-! ## Decoder initialisation -/

theorem decoder_stage_init_fails (e : Env) (s : State) (hi : s.codec_initialized = false)
    (hfail : e.find_decoder = false ∨ e.alloc_context = false ∨ e.open2 < 0) :
    ((decoder_stage e s).exit = .codec_not_found ∨
      (decoder_stage e s).exit = .context_alloc_failed ∨
      (decoder_stage e s).exit = .open_failed) ∧
    (decoder_stage e s).state.codec_initialized = false := by
  unfold decoder_stage
  rw [if_pos hi]
  simp only []
  by_cases h1 : e.find_decoder = false
  · rw [if_pos h1]
    exact ⟨Or.inl rfl, hi⟩
  · rw [if_neg h1]
    by_cases h2 : e.alloc_context = false
    · rw [if_pos h2]
      exact ⟨Or.inr (Or.inl rfl), hi⟩
    · rw [if_neg h2]
      by_cases h3 : e.open2 < 0
      · rw [if_pos h3]
        exact ⟨Or.inr (Or.inr rfl), hi⟩
      · rcases hfail with h | h | h
        · exact absurd h h1
        · exact absurd h h2
        · exact absurd h h3

/-- C7, refuted as stated: in a fresh session the decoder lookup fails during
the first accepted call (exit at line 282); the next accepted call looks the
decoder up again, allocates and opens it, and decodes. -/
theorem C7_failed_init_is_retried_on_next_call :
    ∃ r1 r2,
      video_renderer_render_buffer (sessionState true 1000)
        ⟨minimalUnit, 1, 2000, { okEnv 0 with find_decoder := false }⟩ = .ok r1 ∧
      r1.exit = .codec_not_found ∧
      video_renderer_render_buffer r1.state ⟨minimalUnit, 1, 3000, okEnv 0⟩ = .ok r2 ∧
      r2.exit.accepted = true ∧
      Event.call .avcodec_find_decoder ∈ r2.trace ∧
      Event.call .avcodec_alloc_context3_h264 ∈ r2.trace ∧
      Event.call .avcodec_open2_h264 ∈ r2.trace ∧
      attemptsInit r2 = true ∧
      r2.state.codec_initialized = true :=
  ⟨_, _, rfl, rfl, rfl, rfl, by decide, by decide, by decide, by decide, rfl⟩

/-- C7, amended: if decoder lazy initialisation fails at any step (decoder not
found, context allocation failed, open failed) during a render call on an
accepted access unit, the call returns at line 282, 288 or 294 with
`codec_initialized` still false, so the decode subsystem is not disabled: the
next render call on an accepted access unit attempts the decoder lookup
again. -/
theorem C7_failed_init_leaves_flag_clear_and_next_call_retries (s : State) (rd : Renderer)
    (p p2 : List Byte) (n n2 : Int) (ntp ntp2 : Nat) (e e2 : Env)
    (hr : s.renderer = some rd) (ht : s.base_time ≤ ntp) (ht2 : s.base_time ≤ ntp2)
    (hi : s.codec_initialized = false)
    (hfail : e.find_decoder = false ∨ e.alloc_context = false ∨ e.open2 < 0) :
    ∃ r1, video_renderer_render_buffer s ⟨0x00 :: 0x00 :: 0x00 :: 0x01 :: p, n, ntp, e⟩ = .ok r1 ∧
      (r1.exit = .codec_not_found ∨ r1.exit = .context_alloc_failed ∨ r1.exit = .open_failed) ∧
      r1.state.codec_initialized = false ∧
      ∃ r2, video_renderer_render_buffer r1.state
          ⟨0x00 :: 0x00 :: 0x00 :: 0x01 :: p2, n2, ntp2, e2⟩ = .ok r2 ∧
        r2.exit.accepted = true ∧
        Event.call .avcodec_find_decoder ∈ r2.trace ∧ attemptsInit r2 = true := by
  have h1 := render_valid_unit s rd p n ntp e hr ht
  have hi1 : (clearFirstPacket s).codec_initialized = false :=
    (clearFirstPacket_keeps s).2.2.1.trans hi
  obtain ⟨hexit, hflag⟩ := decoder_stage_init_fails e (clearFirstPacket s) hi1 hfail
  refine ⟨_, h1, hexit, hflag, ?_⟩
  obtain ⟨hb, hren⟩ := render_keeps s _ _ h1
  have hr2 := hren.trans hr
  have ht2b : ((decoder_stage e (clearFirstPacket s)).after (firstPacketLog s)).state.base_time
      ≤ ntp2 := by
    rw [hb]
    exact ht2
  obtain ⟨r2, hr2eq, hacc, _, hent⟩ := valid_unit_accepted _ rd p2 n2 ntp2 e2 hr2 ht2b
  have hentry : Event.call .avcodec_find_decoder ∈ r2.trace := by
    unfold decoderEntry at hent
    rw [if_pos (by exact hflag)] at hent
    exact hent
  exact ⟨r2, hr2eq, hacc, hentry, by simp [attemptsInit, hentry]⟩

/-- C7 amended, at a fresh session whose first call cannot open the decoder. -/
theorem C7_failed_init_leaves_flag_clear_and_next_call_retries_witness :
    ∃ r1, video_renderer_render_buffer (sessionState true 1000)
        ⟨0x00 :: 0x00 :: 0x00 :: 0x01 :: [0x67], 1, 2000, { okEnv 0 with open2 := -1 }⟩ = .ok r1 ∧
      (r1.exit = .codec_not_found ∨ r1.exit = .context_alloc_failed ∨ r1.exit = .open_failed) ∧
      r1.state.codec_initialized = false ∧
      ∃ r2, video_renderer_render_buffer r1.state
          ⟨0x00 :: 0x00 :: 0x00 :: 0x01 :: [0x65], 1, 3000, okEnv 0⟩ = .ok r2 ∧
        r2.exit.accepted = true ∧
        Event.call .avcodec_find_decoder ∈ r2.trace ∧ attemptsInit r2 = true :=
  C7_failed_init_leaves_flag_clear_and_next_call_retries (sessionState true 1000)
    { pipeline := .PLAYING } [0x67] [0x65] 1 1 2000 3000 { okEnv 0 with open2 := -1 } (okEnv 0)
    rfl (by decide) (by decide) rfl (Or.inr (Or.inr (by decide)))

/-! ## Send failure, snapshot failures -/

/-- C8, the code at the failing input: in a decoding session a call whose
`avcodec_send_packet` fails returns at line 328 with `codec_initialized` still
true and `codecContext` freed (NULL); the next accepted call skips
initialisation and passes the NULL context to `avcodec_send_packet`. -/
theorem C8_send_failure_frees_context_but_keeps_flag :
    ∃ r1 r2,
      video_renderer_render_buffer (decodingState true 1000)
        ⟨minimalUnit, 1, 2000, { okEnv 0 with send_packet := -1094995529 }⟩ = .ok r1 ∧
      r1.exit = .send_failed ∧
      r1.state.codec_initialized = true ∧
      r1.state.codecContext = .null ∧
      video_renderer_render_buffer r1.state ⟨minimalUnit, 1, 3000, okEnv 0⟩ = .ok r2 ∧
      attemptsInit r2 = false ∧
      Event.call (.avcodec_send_packet .null) ∈ r2.trace ∧
      Event.call (.avcodec_send_packet .opened) ∉ r2.trace :=
  ⟨_, _, rfl, rfl, rfl, rfl, rfl, by decide, by decide, by decide⟩

/-- C9, the code at the failing input: in a decoding session whose last
snapshot time is 0, a call at clock reading 3 s decodes a picture, passes the
throttle gate and fails to find the JPEG encoder (or to open the output file);
no image is written, yet `last_saved_time` is 3 s after the call. -/
theorem C9_last_saved_time_moves_without_capture :
    (∃ r, video_renderer_render_buffer (decodingState true 1000)
        ⟨minimalUnit, 1, 2000, { okEnv 3000000000 with find_encoder := false }⟩ = .ok r ∧
      r.exit = .jpeg_codec_not_found ∧ persistsImage r = false ∧
      (decodingState true 1000).last_saved_time = 0 ∧
      r.state.last_saved_time = 3000000000) ∧
    (∃ r, video_renderer_render_buffer (decodingState true 1000)
        ⟨minimalUnit, 1, 2000, { okEnv 3000000000 with fopen := false }⟩ = .ok r ∧
      r.exit = .done ∧ persistsImage r = false ∧
      r.state.last_saved_time = 3000000000) :=
  ⟨⟨_, rfl, rfl, by decide, rfl, rfl⟩, ⟨_, rfl, rfl, by decide, rfl⟩⟩

/-- C10, the code at the failing input: in a decoding session with no live
scratch object, each of the six failure returns of the snapshot sequence (lines
341, 349, 365, 372, 382, 392) leaves the input packet and the decoded-picture
buffer allocated, two live scratch objects, while the normal end of the call
leaves none. -/
theorem C10_snapshot_failure_returns_leak_scratch :
    (decodingState true 1000).heap.scratch = 0 ∧
    (∃ r, video_renderer_render_buffer (decodingState true 1000)
        ⟨minimalUnit, 1, 2000, { okEnv 3000000000 with find_encoder := false }⟩ = .ok r ∧
      r.exit = .jpeg_codec_not_found ∧ r.state.heap.scratch = 2) ∧
    (∃ r, video_renderer_render_buffer (decodingState true 1000)
        ⟨minimalUnit, 1, 2000, { okEnv 3000000000 with jpeg_alloc_context := false }⟩ = .ok r ∧
      r.exit = .jpeg_context_alloc_failed ∧ r.state.heap.scratch = 2) ∧
    (∃ r, video_renderer_render_buffer (decodingState true 1000)
        ⟨minimalUnit, 1, 2000, { okEnv 3000000000 with jpeg_open2 := -1 }⟩ = .ok r ∧
      r.exit = .jpeg_open_failed ∧ r.state.heap.scratch = 2) ∧
    (∃ r, video_renderer_render_buffer (decodingState true 1000)
        ⟨minimalUnit, 1, 2000, { okEnv 3000000000 with jpeg_packet_alloc := false }⟩ = .ok r ∧
      r.exit = .jpeg_packet_alloc_failed ∧ r.state.heap.scratch = 2) ∧
    (∃ r, video_renderer_render_buffer (decodingState true 1000)
        ⟨minimalUnit, 1, 2000, { okEnv 3000000000 with send_frame := -1 }⟩ = .ok r ∧
      r.exit = .jpeg_send_failed ∧ r.state.heap.scratch = 2) ∧
    (∃ r, video_renderer_render_buffer (decodingState true 1000)
        ⟨minimalUnit, 1, 2000, { okEnv 3000000000 with receive_packet := -1 }⟩ = .ok r ∧
      r.exit = .jpeg_receive_failed ∧ r.state.heap.scratch = 2) ∧
    (∃ r, video_renderer_render_buffer (decodingState true 1000)
        ⟨minimalUnit, 1, 2000, okEnv 3000000000⟩ = .ok r ∧
      r.exit = .done ∧ r.state.heap.scratch = 0) :=
  ⟨rfl, ⟨_, rfl, rfl, rfl⟩, ⟨_, rfl, rfl, rfl⟩, ⟨_, rfl, rfl, rfl⟩, ⟨_, rfl, rfl, rfl⟩,
    ⟨_, rfl, rfl, rfl⟩, ⟨_, rfl, rfl, rfl⟩, ⟨_, rfl, rfl, rfl⟩⟩

/-! ## Reads of the framing validation -/

/-- C11, the code at the failing input: in a session just started, a non-empty
access unit of one, two or three zero bytes that passes the timestamp checks
makes the start-code test of line 259 read `data[1]`, `data[2]` or `data[3]`,
an index equal to the declared length: with checked indexing the call ends in
the out-of-bounds fault instead of returning.  The read of `data[0]` at line
243 is in bounds for these units, and a one-byte unit whose byte is not zero
returns. -/
theorem C11_short_zero_unit_reads_past_declared_length :
    (1 ≤ ([0x00] : List Byte).length ∧
      readByte [0x00] 0 = .ok 0x00 ∧
      start_code_ok [0x00] = .error (.out_of_bounds 1) ∧
      video_renderer_render_buffer (sessionState true 1000) ⟨[0x00], 1, 2000, okEnv 0⟩ =
        .error (.out_of_bounds 1)) ∧
    (([0x00, 0x00] : List Byte).length = 2 ∧
      video_renderer_render_buffer (sessionState true 1000) ⟨[0x00, 0x00], 1, 2000, okEnv 0⟩ =
        .error (.out_of_bounds 2)) ∧
    (([0x00, 0x00, 0x00] : List Byte).length = 3 ∧
      video_renderer_render_buffer (sessionState true 1000)
          ⟨[0x00, 0x00, 0x00], 1, 2000, okEnv 0⟩ =
        .error (.out_of_bounds 3)) ∧
    video_renderer_render_buffer (sessionState false 1000) ⟨[0x00], 1, 2000, okEnv 0⟩ =
      .error (.out_of_bounds 1) ∧
    video_renderer_render_buffer (sessionState true 1000) ⟨[0x01], 1, 2000, okEnv 0⟩ =
      .ok ⟨sessionState true 1000, [.log .ERR .decryption_failed], .decryption_failed⟩ :=
  ⟨⟨by decide, rfl, rfl, rfl⟩, ⟨rfl, rfl⟩, ⟨rfl, rfl⟩, rfl, rfl⟩

end UxPlay
